import Mathlib

/-!
Shallow embedding of the StaticHosting CDK construct from
src/lib/static-hosting.ts.  The TypeScript constructor runs once and
emits a static graph of resource declarations; we model it as a pure
function from the props record to a record collecting every declaration
the constructor emits, in source order.  Optional props are modelled as
Option values, and JavaScript truthiness of optional booleans and
strings is made explicit (an absent or false boolean is falsy, an
absent or empty string is falsy, and a supplied array is always truthy,
hence the Option match on array-valued props).
-/

namespace StaticHostingModel

/-- JS truthiness of an optional boolean prop: undefined and false are falsy. -/
def optTruthy : Option Bool → Bool
  | some b => b
  | none => false

/-- JS truthiness of an optional string prop: undefined and the empty string are falsy. -/
def optStrTruthy : Option String → Bool
  | some s => s != ""
  | none => false

/-- BucketEncryption values used by the construct. -/
inductive BucketEncryption
  | s3Managed
  deriving DecidableEq, Repr

/-- BlockPublicAccess values used by the construct. -/
inductive BlockPublicAccess
  | blockAll
  deriving DecidableEq, Repr

/-- RemovalPolicy values used by the construct. -/
inductive RemovalPolicy
  | retain
  | destroy
  deriving DecidableEq, Repr

/-- A CloudFront cache behavior; the construct only ever sets
isDefaultBehavior on the one it builds itself, callers may pass richer
ones which we distinguish by an optional path pattern. -/
structure Behavior where
  isDefaultBehavior : Bool := false
  pathPattern : Option String := none
  deriving DecidableEq, Repr

/-- The s3OriginSource part of a SourceConfiguration: a bucket reference
and an optional origin access identity reference, both by construct id. -/
structure S3OriginSource where
  s3BucketSource : String
  originAccessIdentity : Option String := none
  deriving DecidableEq, Repr

/-- A CloudFront SourceConfiguration: an S3 or custom origin plus its
behavior list. -/
structure SourceConfiguration where
  s3OriginSource : Option S3OriginSource := none
  customOriginDomainName : Option String := none
  behaviors : List Behavior
  deriving DecidableEq, Repr

/-- An S3 bucket declaration as emitted by the construct. -/
structure BucketDecl where
  constructId : String
  bucketName : String
  encryption : BucketEncryption
  blockPublicAccess : BlockPublicAccess
  removalPolicy : Option RemovalPolicy := none
  deriving DecidableEq, Repr

/-- The access level of a grant call on a bucket. -/
inductive GrantAccess
  | read
  | readWrite
  | write
  deriving DecidableEq, Repr

/-- A grant emitted by bucket.grantRead / grantReadWrite / grantWrite,
recorded as bucket construct id, grantee construct id and access level. -/
structure Grant where
  bucketId : String
  grantee : String
  access : GrantAccess
  deriving DecidableEq, Repr

/-- An IAM user declaration. -/
structure UserDecl where
  constructId : String
  userName : String
  deriving DecidableEq, Repr

/-- An IAM group declaration; users holds the construct ids added via
addUser, in call order. -/
structure GroupDecl where
  constructId : String
  users : List String
  deriving DecidableEq, Repr

/-- An IAM policy statement effect. -/
inductive Effect
  | allow
  | deny
  deriving DecidableEq, Repr

/-- An IAM policy statement declaration. -/
structure PolicyStatementDecl where
  effect : Effect
  actions : List String
  resources : List String
  deriving DecidableEq, Repr

/-- An IAM policy declaration; groups and users record the principals
the policy is attached to, by construct id. -/
structure PolicyDecl where
  constructId : String
  groups : List String
  users : List String
  statements : List PolicyStatementDecl
  deriving DecidableEq, Repr

/-- The aliasConfiguration block of the distribution. -/
structure AliasConfiguration where
  acmCertRef : String
  names : List String
  deriving DecidableEq, Repr

/-- An errorConfigurations entry of the distribution. -/
structure ErrorConfiguration where
  errorCode : Nat
  errorCachingMinTtl : Nat
  responseCode : Nat
  responsePagePath : String
  deriving DecidableEq, Repr

/-- The loggingConfig block of the distribution: a bucket reference. -/
structure LoggingConfig where
  bucketId : String
  deriving DecidableEq, Repr

/-- The CloudFront web distribution declaration.  distributionId and
domainName stand for the deploy-time attribute tokens of this
distribution resource. -/
structure DistributionDecl where
  constructId : String
  aliasConfiguration : AliasConfiguration
  originConfigs : List SourceConfiguration
  errorConfigurations : List ErrorConfiguration
  loggingConfig : Option LoggingConfig
  distributionId : String
  domainName : String
  deriving DecidableEq, Repr

/-- A Route53 alias record declaration; the target records which
distribution resource the alias points at, by construct id. -/
structure ARecordDecl where
  recordName : String
  targetDistributionId : String
  zoneName : String
  deriving DecidableEq, Repr

/-- A CfnOutput declaration. -/
structure OutputDecl where
  constructId : String
  description : String
  value : String
  deriving DecidableEq, Repr

/-- The StaticHostingProps interface.  Optional interface fields are
Option values; absent means undefined. -/
structure StaticHostingProps where
  domainName : String
  subDomainName : String
  certificateArn : String
  createDnsRecord : Option Bool := none
  createPublisherGroup : Option Bool := none
  createPublisherUser : Option Bool := none
  extraDistributionCnames : Option (List String) := none
  enableCloudFrontAccessLogging : Option Bool := none
  zoneName : Option String := none
  customOriginConfigs : Option (List SourceConfiguration) := none
  behaviors : Option (List Behavior) := none
  deriving DecidableEq, Repr

/-- Everything the constructor declares, in one record. -/
structure BuildResult where
  siteName : String
  distributionCnames : List String
  contentBucket : BucketDecl
  oaiId : String
  grants : List Grant
  publisherUser : Option UserDecl
  publisherGroup : Option GroupDecl
  loggingBucket : Option BucketDecl
  originConfigs : List SourceConfiguration
  distribution : DistributionDecl
  invalidationPolicy : Option PolicyDecl
  dnsRecord : Option ARecordDecl
  outputs : List OutputDecl
  deriving DecidableEq, Repr

/-- The siteName binding of the constructor:
subDomainName . domainName. -/
def siteNameOf (props : StaticHostingProps) : String :=
  props.subDomainName ++ "." ++ props.domainName

/-- The behavior list of the default origin: the behaviors prop when
supplied (a supplied array, even empty, is truthy), otherwise the single
default catch-all behavior. -/
def defaultBehaviorsOf (props : StaticHostingProps) : List Behavior :=
  match props.behaviors with
  | some bs => bs
  | none => [{ isDefaultBehavior := true }]

/-- The default origin the constructor pushes first: the content bucket
via the origin access identity, with the (possibly overridden) behavior
list. -/
def defaultOriginOf (props : StaticHostingProps) : SourceConfiguration :=
  { s3OriginSource := some { s3BucketSource := "ContentBucket",
                             originAccessIdentity := some "OriginAccessIdentity" },
    behaviors := defaultBehaviorsOf props }

/-- The three cache-invalidation actions of the policy statement. -/
def invalidationActions : List String :=
  ["cloudfront:CreateInvalidation", "cloudfront:GetInvalidation",
   "cloudfront:ListInvalidations"]

/-- The StaticHosting constructor, modelled declaration by declaration
in source order. -/
def build (props : StaticHostingProps) : BuildResult :=
  let siteName := siteNameOf props
  let siteNameArray : List String := [siteName]
  let distributionCnames : List String :=
    match props.extraDistributionCnames with
    | some extras => siteNameArray ++ extras
    | none => siteNameArray
  let bucket : BucketDecl :=
    { constructId := "ContentBucket", bucketName := siteName,
      encryption := .s3Managed, blockPublicAccess := .blockAll }
  let bucketOutput : OutputDecl :=
    { constructId := "Bucket", description := "BucketName",
      value := bucket.bucketName }
  let oaiId : String := "OriginAccessIdentity"
  let oaiGrant : Grant :=
    { bucketId := bucket.constructId, grantee := oaiId, access := .read }
  let publisherUser : Option UserDecl :=
    if optTruthy props.createPublisherUser then
      some { constructId := "PublisherUser",
             userName := "publisher-" ++ siteName }
    else none
  let userOutputs : List OutputDecl :=
    match publisherUser with
    | some u => [{ constructId := "PublisherUserName",
                   description := "PublisherUser", value := u.userName }]
    | none => []
  let publisherGroup0 : Option GroupDecl :=
    if optTruthy props.createPublisherGroup then
      some { constructId := "PublisherGroup", users := [] }
    else none
  let groupGrants : List Grant :=
    match publisherGroup0 with
    | some g => [{ bucketId := bucket.constructId, grantee := g.constructId,
                   access := .readWrite }]
    | none => []
  let groupOutputs : List OutputDecl :=
    match publisherGroup0 with
    | some g => [{ constructId := "PublisherGroupName",
                   description := "PublisherGroup",
                   value := g.constructId ++ ".GroupName" }]
    | none => []
  let publisherGroup : Option GroupDecl :=
    match publisherGroup0, publisherUser with
    | some g, some u => some { g with users := g.users ++ [u.constructId] }
    | some g, none => some g
    | none, _ => none
  let loggingBucket : Option BucketDecl :=
    if optTruthy props.enableCloudFrontAccessLogging then
      some { constructId := "LoggingBucket",
             bucketName := siteName ++ "-access-logs",
             encryption := .s3Managed, blockPublicAccess := .blockAll,
             removalPolicy := some .retain }
    else none
  let loggingGrants : List Grant :=
    match loggingBucket with
    | some lb => [{ bucketId := lb.constructId, grantee := oaiId,
                    access := .write }]
    | none => []
  let loggingOutputs : List OutputDecl :=
    match loggingBucket with
    | some lb => [{ constructId := "LoggingBucketName",
                    description := "CloudFront Logs", value := lb.bucketName }]
    | none => []
  let loggingConfig : Option LoggingConfig :=
    match loggingBucket with
    | some lb => some { bucketId := lb.constructId }
    | none => none
  let originConfigs : List SourceConfiguration :=
    match props.customOriginConfigs with
    | some cs => [defaultOriginOf props] ++ cs
    | none => [defaultOriginOf props]
  let distribution : DistributionDecl :=
    { constructId := "BucketCdn",
      aliasConfiguration :=
        { acmCertRef := props.certificateArn, names := distributionCnames },
      originConfigs := originConfigs,
      errorConfigurations :=
        [{ errorCode := 404, errorCachingMinTtl := 0, responseCode := 200,
           responsePagePath := "/index.html" }],
      loggingConfig := loggingConfig,
      distributionId := "BucketCdn.DistributionId",
      domainName := "BucketCdn.DomainName" }
  let invalidationPolicy : Option PolicyDecl :=
    match publisherGroup with
    | some g =>
        some { constructId := "CloudFrontInvalidationPolicy",
               groups := [g.constructId],
               users := [],
               statements :=
                 [{ effect := .allow,
                    actions := invalidationActions,
                    resources := ["arn:aws:cloudfront::*:distribution/" ++
                                  distribution.distributionId] }] }
    | none => none
  let distOutputs : List OutputDecl :=
    [{ constructId := "DistributionId", description := "DistributionId",
       value := distribution.distributionId },
     { constructId := "DistributionDomainName",
       description := "DistributionDomainName",
       value := distribution.domainName }]
  let dnsRecord : Option ARecordDecl :=
    if optTruthy props.createDnsRecord && optStrTruthy props.zoneName then
      some { recordName := siteName,
             targetDistributionId := distribution.constructId,
             zoneName := props.zoneName.getD "" }
    else none
  { siteName := siteName,
    distributionCnames := distributionCnames,
    contentBucket := bucket,
    oaiId := oaiId,
    grants := [oaiGrant] ++ groupGrants ++ loggingGrants,
    publisherUser := publisherUser,
    publisherGroup := publisherGroup,
    loggingBucket := loggingBucket,
    originConfigs := originConfigs,
    distribution := distribution,
    invalidationPolicy := invalidationPolicy,
    dnsRecord := dnsRecord,
    outputs := [bucketOutput] ++ userOutputs ++ groupOutputs ++
               loggingOutputs ++ distOutputs }

/-- A minimal concrete configuration used to instantiate the theorems
on explicit inputs. -/
def propsBase : StaticHostingProps :=
  { domainName := "example.com", subDomainName := "www",
    certificateArn := "arn:cert" }

end StaticHostingModel

open StaticHostingModel

/-- Evaluation of optTruthy on a supplied boolean. -/
@[simp]
theorem optTruthy_some (b : Bool) : optTruthy (some b) = b := rfl

/-- Evaluation of optTruthy on an absent boolean. -/
@[simp]
theorem optTruthy_none : optTruthy none = false := rfl

/-- Evaluation of optStrTruthy on a supplied string. -/
@[simp]
theorem optStrTruthy_some (s : String) : optStrTruthy (some s) = (s != "") := rfl

/-- Evaluation of optStrTruthy on an absent string. -/
@[simp]
theorem optStrTruthy_none : optStrTruthy none = false := rfl

/-- C2: for every configuration, the content bucket declared name equals
the canonical site hostname, the sub-domain and the domain joined by a
dot. -/
theorem c2_content_bucket_name (props : StaticHostingProps) :
    (build props).contentBucket.bucketName =
      props.subDomainName ++ "." ++ props.domainName := by
  rfl

/-- C1: whenever createPublisherGroup is true, the build emits exactly one
cache-invalidation policy, attached to the publisher group only (no user
attachment), with a single statement allowing exactly the three
invalidation actions on exactly the distribution id of the distribution
created in the same build. -/
theorem c1_invalidation_policy (props : StaticHostingProps)
    (h : props.createPublisherGroup = some true) :
    (build props).invalidationPolicy =
      some { constructId := "CloudFrontInvalidationPolicy",
             groups := ["PublisherGroup"],
             users := [],
             statements :=
               [{ effect := .allow,
                  actions := ["cloudfront:CreateInvalidation",
                              "cloudfront:GetInvalidation",
                              "cloudfront:ListInvalidations"],
                  resources := ["arn:aws:cloudfront::*:distribution/" ++
                                (build props).distribution.distributionId] }] } := by
  cases hu : optTruthy props.createPublisherUser <;>
    simp [build, h, hu, invalidationActions]

/-- Witness for c1_invalidation_policy at a concrete configuration. -/
theorem c1_invalidation_policy_witness :
    (build { domainName := "example.com", subDomainName := "www",
             certificateArn := "arn:cert",
             createPublisherGroup := some true }).invalidationPolicy =
      some { constructId := "CloudFrontInvalidationPolicy",
             groups := ["PublisherGroup"],
             users := [],
             statements :=
               [{ effect := .allow,
                  actions := ["cloudfront:CreateInvalidation",
                              "cloudfront:GetInvalidation",
                              "cloudfront:ListInvalidations"],
                  resources := ["arn:aws:cloudfront::*:distribution/" ++
                                (build { domainName := "example.com",
                                         subDomainName := "www",
                                         certificateArn := "arn:cert",
                                         createPublisherGroup := some true
                                       }).distribution.distributionId] }] } :=
  c1_invalidation_policy _ rfl

/-- C3: the distribution alias list always starts with the canonical
site hostname; it equals the hostname followed by the supplied extras
when extraDistributionCnames is supplied, and is the singleton hostname
when it is absent. -/
theorem c3_alias_list (props : StaticHostingProps) :
    (build props).distribution.aliasConfiguration.names.head? =
      some (siteNameOf props) ∧
    (∀ extras, props.extraDistributionCnames = some extras →
      (build props).distribution.aliasConfiguration.names =
        [siteNameOf props] ++ extras) ∧
    (props.extraDistributionCnames = none →
      (build props).distribution.aliasConfiguration.names =
        [siteNameOf props]) := by
  refine ⟨?_, ?_, ?_⟩ <;>
    cases h : props.extraDistributionCnames <;>
      simp [build, siteNameOf, h]

/-- Witness for c3_alias_list at a concrete configuration with one extra
alias. -/
theorem c3_alias_list_witness :
    (build { domainName := "example.com", subDomainName := "www",
             certificateArn := "arn:cert",
             extraDistributionCnames := some ["alt.example.com"]
           }).distribution.aliasConfiguration.names =
      ["www.example.com", "alt.example.com"] := by
  simpa using (c3_alias_list
    { domainName := "example.com", subDomainName := "www",
      certificateArn := "arn:cert",
      extraDistributionCnames := some ["alt.example.com"] }).2.1
    ["alt.example.com"] rfl

/-- C4: when behaviors is supplied non-empty the default origin carries
exactly the supplied behavior list in place of the default; when
behaviors is absent the default origin carries exactly one default
catch-all behavior. -/
theorem c4_behavior_override (props : StaticHostingProps) :
    (∀ bs : List Behavior, props.behaviors = some bs → bs ≠ [] →
      (build props).originConfigs.head? = some (defaultOriginOf props) ∧
      (defaultOriginOf props).behaviors = bs) ∧
    (props.behaviors = none →
      (build props).originConfigs.head? = some (defaultOriginOf props) ∧
      (defaultOriginOf props).behaviors =
        [{ isDefaultBehavior := true, pathPattern := none }]) := by
  constructor
  · intro bs hbs _
    constructor
    · cases h : props.customOriginConfigs <;> simp [build, h]
    · simp [defaultOriginOf, defaultBehaviorsOf, hbs]
  · intro hb
    constructor
    · cases h : props.customOriginConfigs <;> simp [build, h]
    · simp [defaultOriginOf, defaultBehaviorsOf, hb]

/-- Witness for c4_behavior_override at a concrete configuration with a
non-empty behavior override. -/
theorem c4_behavior_override_witness :
    (build { domainName := "example.com", subDomainName := "www",
             certificateArn := "arn:cert",
             behaviors := some [{ pathPattern := some "/api" }]
           }).originConfigs.head? =
      some (defaultOriginOf
        { domainName := "example.com", subDomainName := "www",
          certificateArn := "arn:cert",
          behaviors := some [{ pathPattern := some "/api" }] }) ∧
    (defaultOriginOf
      { domainName := "example.com", subDomainName := "www",
        certificateArn := "arn:cert",
        behaviors := some [{ pathPattern := some "/api" }] }).behaviors =
      [{ pathPattern := some "/api" }] :=
  (c4_behavior_override _).1 [{ pathPattern := some "/api" }] rfl (by decide)

/-- C5: the origin list always starts with the default bucket-backed
origin; it equals the default origin followed by the supplied custom
origins in order when customOriginConfigs is supplied, and is the
singleton default origin when it is absent. -/
theorem c5_origin_composition (props : StaticHostingProps) :
    (build props).originConfigs.head? = some (defaultOriginOf props) ∧
    (∀ cs, props.customOriginConfigs = some cs →
      (build props).originConfigs = [defaultOriginOf props] ++ cs) ∧
    (props.customOriginConfigs = none →
      (build props).originConfigs = [defaultOriginOf props]) := by
  refine ⟨?_, ?_, ?_⟩ <;>
    cases h : props.customOriginConfigs <;> simp [build, h]

/-- Witness for c5_origin_composition at a concrete configuration with
one custom origin. -/
theorem c5_origin_composition_witness :
    (build { domainName := "example.com", subDomainName := "www",
             certificateArn := "arn:cert",
             customOriginConfigs :=
               some [{ customOriginDomainName := some "api.example.com",
                       behaviors := [{ pathPattern := some "/api" }] }]
           }).originConfigs =
      [defaultOriginOf
        { domainName := "example.com", subDomainName := "www",
          certificateArn := "arn:cert",
          customOriginConfigs :=
            some [{ customOriginDomainName := some "api.example.com",
                    behaviors := [{ pathPattern := some "/api" }] }] }] ++
      [{ customOriginDomainName := some "api.example.com",
         behaviors := [{ pathPattern := some "/api" }] }] :=
  (c5_origin_composition _).2.1
    [{ customOriginDomainName := some "api.example.com",
       behaviors := [{ pathPattern := some "/api" }] }] rfl

/-- C6: with both the group and the user flag set, the group membership
is exactly the one created publisher user; with only the group flag set,
the group has no members but still receives the read/write grant on the
content bucket and the invalidation policy is still attached. -/
theorem c6_group_membership (props : StaticHostingProps) :
    (props.createPublisherGroup = some true →
      props.createPublisherUser = some true →
      (build props).publisherUser =
        some { constructId := "PublisherUser",
               userName := "publisher-" ++ siteNameOf props } ∧
      (build props).publisherGroup =
        some { constructId := "PublisherGroup", users := ["PublisherUser"] }) ∧
    (props.createPublisherGroup = some true →
      optTruthy props.createPublisherUser = false →
      (build props).publisherGroup =
        some { constructId := "PublisherGroup", users := [] } ∧
      ({ bucketId := "ContentBucket", grantee := "PublisherGroup",
         access := .readWrite } : Grant) ∈ (build props).grants ∧
      ((build props).invalidationPolicy).isSome = true) := by
  constructor
  · intro hg hu
    simp [build, hg, hu]
  · intro hg hu
    refine ⟨?_, ?_, ?_⟩ <;>
      cases hl : optTruthy props.enableCloudFrontAccessLogging <;>
        simp [build, hg, hu, hl]

/-- Witness for c6_group_membership with both flags set. -/
theorem c6_group_membership_witness :
    (build { propsBase with createPublisherGroup := some true,
                            createPublisherUser := some true }).publisherUser =
      some { constructId := "PublisherUser",
             userName := "publisher-" ++ siteNameOf
               { propsBase with createPublisherGroup := some true,
                                createPublisherUser := some true } } ∧
    (build { propsBase with createPublisherGroup := some true,
                            createPublisherUser := some true }).publisherGroup =
      some { constructId := "PublisherGroup", users := ["PublisherUser"] } :=
  (c6_group_membership _).1 rfl rfl

/-- C7: a DNS alias record is declared exactly when createDnsRecord is
truthy and zoneName is a non-empty string; with the flag set but the
zone name unset or empty, no record is declared and the build still
succeeds totally; any declared record carries the canonical hostname
and targets the distribution created in the same build. -/
theorem c7_dns_record (props : StaticHostingProps) :
    (optTruthy props.createDnsRecord = true →
      optStrTruthy props.zoneName = false →
      (build props).dnsRecord = none) ∧
    ((build props).dnsRecord.isSome = true ↔
      (optTruthy props.createDnsRecord = true ∧
       optStrTruthy props.zoneName = true)) ∧
    (∀ r, (build props).dnsRecord = some r →
      r.recordName = siteNameOf props ∧
      r.targetDistributionId = (build props).distribution.constructId) := by
  refine ⟨?_, ?_, ?_⟩
  · intro hc hz
    simp [build, hc, hz]
  · cases hc : optTruthy props.createDnsRecord <;>
      cases hz : optStrTruthy props.zoneName <;>
        simp [build, hc, hz]
  · intro r hr
    simp only [build] at hr
    split at hr
    · cases hr
      exact ⟨rfl, rfl⟩
    · cases hr

/-- Witness for c7_dns_record: flag set, empty zone name, no record. -/
theorem c7_dns_record_witness :
    (build { propsBase with createDnsRecord := some true,
                            zoneName := some "" }).dnsRecord = none :=
  (c7_dns_record _).1 rfl rfl

/-- C8: with access logging disabled or absent there is no logging
bucket, no logging-bucket output and no distribution logging config;
with it enabled the logging bucket is named hostname-access-logs, is
retained on teardown and is the distribution logging config. -/
theorem c8_access_logging (props : StaticHostingProps) :
    (optTruthy props.enableCloudFrontAccessLogging = false →
      (build props).loggingBucket = none ∧
      (∀ o ∈ (build props).outputs, o.constructId ≠ "LoggingBucketName") ∧
      (build props).distribution.loggingConfig = none) ∧
    (optTruthy props.enableCloudFrontAccessLogging = true →
      (build props).loggingBucket =
        some { constructId := "LoggingBucket",
               bucketName := siteNameOf props ++ "-access-logs",
               encryption := .s3Managed, blockPublicAccess := .blockAll,
               removalPolicy := some .retain } ∧
      (build props).distribution.loggingConfig =
        some { bucketId := "LoggingBucket" }) := by
  constructor
  · intro hl
    refine ⟨?_, ?_, ?_⟩ <;>
      cases hu : optTruthy props.createPublisherUser <;>
        cases hg : optTruthy props.createPublisherGroup <;>
          simp [build, hl, hu, hg]
  · intro hl
    constructor <;> simp [build, hl]

/-- Witness for c8_access_logging with logging enabled. -/
theorem c8_access_logging_witness :
    (build { propsBase with
              enableCloudFrontAccessLogging := some true }).loggingBucket =
      some { constructId := "LoggingBucket",
             bucketName := siteNameOf
               { propsBase with enableCloudFrontAccessLogging := some true } ++
               "-access-logs",
             encryption := .s3Managed, blockPublicAccess := .blockAll,
             removalPolicy := some .retain } ∧
    (build { propsBase with
              enableCloudFrontAccessLogging := some true
           }).distribution.loggingConfig =
      some { bucketId := "LoggingBucket" } :=
  (c8_access_logging _).2 rfl

/-- C9: with createPublisherUser false or absent, no publisher user is
declared, no publisher-user output is emitted, and any publisher group
has an empty membership list. -/
theorem c9_no_publisher_user (props : StaticHostingProps)
    (h : optTruthy props.createPublisherUser = false) :
    (build props).publisherUser = none ∧
    (∀ o ∈ (build props).outputs, o.constructId ≠ "PublisherUserName") ∧
    (∀ g, (build props).publisherGroup = some g → g.users = []) := by
  refine ⟨?_, ?_, ?_⟩ <;>
    cases hg : optTruthy props.createPublisherGroup <;>
      cases hl : optTruthy props.enableCloudFrontAccessLogging <;>
        simp [build, h, hg, hl]

/-- Witness for c9_no_publisher_user at the base configuration. -/
theorem c9_no_publisher_user_witness :
    (build propsBase).publisherUser = none :=
  (c9_no_publisher_user propsBase rfl).1

/-- C10: a behaviors prop supplied as the empty list still replaces the
default catch-all behavior, leaving the default origin with an empty
behavior list. -/
theorem c10_empty_behaviors (props : StaticHostingProps)
    (h : props.behaviors = some []) :
    (build props).originConfigs.head? = some (defaultOriginOf props) ∧
    (defaultOriginOf props).behaviors = [] := by
  constructor
  · cases hc : props.customOriginConfigs <;> simp [build, hc]
  · simp [defaultOriginOf, defaultBehaviorsOf, h]

/-- Witness for c10_empty_behaviors at a concrete configuration. -/
theorem c10_empty_behaviors_witness :
    (build { propsBase with behaviors := some [] }).originConfigs.head? =
      some (defaultOriginOf { propsBase with behaviors := some [] }) ∧
    (defaultOriginOf { propsBase with behaviors := some [] }).behaviors = [] :=
  c10_empty_behaviors _ rfl
